import Mathlib

/-!
Verification of the Muse-Contracts wage calculation engine.

The definitions below are a shallow embedding of the calculation core of
`app.py` (`is_principal`, `get_cartage_fee`, `calculate_contract_totals`),
the rate configuration of `config.py` (the `SCALES` dictionary), and the
relevant columns of the `Contract` / `SideMusician` models of `models.py`.

Python `float` values are modelled as `ℚ`; dictionary keys that may be
absent are modelled as `Option ℚ` with Python's `dict.get(key, default)`
becoming `Option.getD`.  The `try`/`except` block of
`calculate_contract_totals` is modelled by an `Option`-valued core
(`calc_outputs`): `none` corresponds to a raised-and-caught `ValueError`
(schedule missing, or non-positive base performance rate), in which case
the four stored totals are zeroed and everything else is left unchanged.
-/

namespace MuseContracts

/-- Models Python `str.lower()` for the ASCII strings used in the
configuration: lower-cases every character. -/
def py_lower (s : String) : String :=
  String.mk (s.data.map Char.toLower)

/-- Models the Python substring test `needle in haystack` on strings:
true iff `needle` occurs contiguously inside `hay`. -/
def py_in (needle hay : String) : Bool :=
  (List.range (hay.data.length + 1)).any fun i =>
    needle.data.isPrefixOf (hay.data.drop i)

/-- Models Python `round(x, 2)`: round to two decimal places with the
round-half-to-even tie rule used by Python's `round`. -/
def pyRound2 (q : ℚ) : ℚ :=
  let y : ℚ := q * 100
  let f : ℤ := ⌊y⌋
  let r : ℚ := y - f
  let n : ℤ :=
    if 1/2 < r then f + 1
    else if r < 1/2 then f
    else if f % 2 = 0 then f else f + 1
  (n : ℚ) / 100

/-- One entry of the `SCALES` dictionary of `config.py`, restricted to the
keys read by `calculate_contract_totals` and `get_cartage_fee`/`is_principal`
(plus `CARTAGE_RATE_SB` and `CARTAGE_RATE_STD`, which the shipped
configuration defines but no code reads).  A key that a given scale entry
does not define is `none`; `dict.get(k, d)` is `Option.getD`.  Keys of the
source dictionary never read by any code under verification are omitted. -/
structure ScaleConfig where
  PERFORMANCE_BASE : Option ℚ := none
  REHEARSAL_MIN_CALL : Option ℚ := none
  PERFORMANCE_PRINCIPAL_PREMIUM : Option ℚ := none
  REHEARSAL_PRINCIPAL_PREMIUM : Option ℚ := none
  PERF_OT_UNIT_MINS : Option ℚ := none
  PERF_OT_RATE : Option ℚ := none
  PERF_OT_PRINCIPAL_RATE : Option ℚ := none
  REH_OT_UNIT_MINS : Option ℚ := none
  REH_OT_RATE : Option ℚ := none
  REH_OT_PRINCIPAL_RATE : Option ℚ := none
  DOUBLING_FIRST_PREMIUM : Option ℚ := none
  PENSION_RATE : Option ℚ := none
  HEALTH_PER_PERFORMANCE : Option ℚ := none
  HEALTH_PER_REHEARSAL : Option ℚ := none
  WORK_DUES_RATE : Option ℚ := none
  CARTAGE_RATE_SB : Option ℚ := none
  CARTAGE_RATE_STD : Option ℚ := none
  PRINCIPAL_INSTRUMENTS : List String := []
  CARTAGE_INSTRUMENTS_SB : List String := []
  CARTAGE_INSTRUMENTS_STD : List String := []
deriving DecidableEq

/-- The application configuration surface read by the calculation code:
the nested `SCALES` dictionary (jurisdiction key, then scale key), and the
two top-level cartage rate keys that `get_cartage_fee` reads via
`app.config.get(..., 0.0)`.  `config.py` defines no
`SCALE_CARTAGE_STRING_BASS` / `SCALE_CARTAGE_CELLO_BASS_ETC` attribute, so
in the shipped configuration both are `none`. -/
structure AppConfig where
  SCALES : List (String × List (String × ScaleConfig))
  SCALE_CARTAGE_STRING_BASS : Option ℚ := none
  SCALE_CARTAGE_CELLO_BASS_ETC : Option ℚ := none

/-- Models `app.config.get('SCALES', {}).get(local, {}).get(scale)`. -/
def AppConfig.lookupScale (cfg : AppConfig) (loc scaleKey : String) :
    Option ScaleConfig :=
  match cfg.SCALES.lookup loc with
  | none => none
  | some m => m.lookup scaleKey

/-- The columns of the `SideMusician` model read by the calculator. -/
structure SideMusicianR where
  instrument : String
  is_doubling : Bool
  has_cartage : Bool
  num_doubles : ℤ := 0
deriving DecidableEq

/-- The columns of the `Contract` model read or written by
`calculate_contract_totals`, together with the stored leader fields of
`models.py` (which the calculator currently ignores: the source hardcodes
the leader as non-principal, non-doubling, no cartage, empty instrument).
Columns never read nor written by the calculator (names, dates, venue,
status, ...) are omitted. -/
structure Contract where
  applicable_local : String
  applicable_scale : String
  actual_hours_engagement : Option ℚ := none
  actual_hours_rehearsal : Option ℚ := none
  has_rehearsal : Bool := false
  leader_instrument : String := ""
  leader_is_playing : Bool := true
  leader_is_principal : Bool := false
  leader_is_concertmaster : Bool := false
  leader_is_doubling : Bool := false
  leader_num_doubles : ℤ := 0
  leader_has_cartage : Bool := false
  num_musicians : ℤ := 1
  total_gross_comp : Option ℚ := none
  total_work_dues : Option ℚ := none
  total_pension : Option ℚ := none
  total_health : Option ℚ := none
  side_musicians : List SideMusicianR := []
deriving DecidableEq

/-- Models `is_principal(instrument_string, scale_config)` of `app.py`:
false for an empty instrument, an absent schedule, or an empty
`PRINCIPAL_INSTRUMENTS` list; otherwise true iff some configured
principal-instrument substring occurs (case-insensitively) in the
instrument string. -/
def is_principal (instrument_string : String)
    (scale_config : Option ScaleConfig) : Bool :=
  match scale_config with
  | none => false
  | some sc =>
    if instrument_string = "" then false
    else if sc.PRINCIPAL_INSTRUMENTS.isEmpty then false
    else sc.PRINCIPAL_INSTRUMENTS.any fun p =>
      py_in (py_lower p) (py_lower instrument_string)

/-- True iff the instrument matches the schedule's string-bass cartage
list, by the case-insensitive substring test of `get_cartage_fee`. -/
def matches_sb (sc : ScaleConfig) (inst_lower : String) : Bool :=
  sc.CARTAGE_INSTRUMENTS_SB.any fun sb => py_in (py_lower sb) inst_lower

/-- True iff the instrument matches the schedule's standard cartage list,
by the case-insensitive substring test of `get_cartage_fee`. -/
def matches_std (sc : ScaleConfig) (inst_lower : String) : Bool :=
  sc.CARTAGE_INSTRUMENTS_STD.any fun std => py_in (py_lower std) inst_lower

/-- Models `get_cartage_fee(instrument_string, has_cartage_flag, scale_config)`
of `app.py`.  Note that the two rates are read from the application-level
configuration keys `SCALE_CARTAGE_STRING_BASS` and
`SCALE_CARTAGE_CELLO_BASS_ETC` (with default `0.0`), not from the scale
entry itself. -/
def get_cartage_fee (cfg : AppConfig) (instrument_string : String)
    (has_cartage_flag : Bool) (scale_config : Option ScaleConfig) : ℚ :=
  if has_cartage_flag = false ∨ instrument_string = "" ∨ scale_config = none
  then 0
  else
    match scale_config with
    | none => 0
    | some sc =>
      let inst_lower := py_lower instrument_string
      if matches_sb sc inst_lower then cfg.SCALE_CARTAGE_STRING_BASS.getD 0
      else if matches_std sc inst_lower then
        cfg.SCALE_CARTAGE_CELLO_BASS_ETC.getD 0
      else 0

/-- The local rate variables extracted from the scale entry at the top of
`calculate_contract_totals` (app.py lines 130-137), with the exact
defaults of the source's `scale_config.get(...)` calls. -/
structure Rates where
  base_perf_rate : ℚ
  base_reh_rate : ℚ
  principal_perf_mult : ℚ
  principal_reh_mult : ℚ
  perf_ot_unit_mins : ℚ
  perf_ot_rate : ℚ
  perf_ot_principal_rate : ℚ
  reh_ot_unit_mins : ℚ
  reh_ot_rate : ℚ
  reh_ot_principal_rate : ℚ
  doubling_premium : ℚ
  pension_rate : ℚ
  health_perf_rate : ℚ
  health_reh_rate : ℚ
  work_dues_rate : ℚ
deriving DecidableEq

/-- Extraction of the rate variables from a scale entry, mirroring
app.py lines 130-137 key by key with the source's defaults. -/
def ratesOf (sc : ScaleConfig) : Rates where
  base_perf_rate := sc.PERFORMANCE_BASE.getD 0
  base_reh_rate := sc.REHEARSAL_MIN_CALL.getD 0
  principal_perf_mult := sc.PERFORMANCE_PRINCIPAL_PREMIUM.getD 1
  principal_reh_mult := sc.REHEARSAL_PRINCIPAL_PREMIUM.getD 1
  perf_ot_unit_mins := sc.PERF_OT_UNIT_MINS.getD 15
  perf_ot_rate := sc.PERF_OT_RATE.getD 0
  perf_ot_principal_rate := sc.PERF_OT_PRINCIPAL_RATE.getD 0
  reh_ot_unit_mins := sc.REH_OT_UNIT_MINS.getD 30
  reh_ot_rate := sc.REH_OT_RATE.getD 0
  reh_ot_principal_rate := sc.REH_OT_PRINCIPAL_RATE.getD 0
  doubling_premium := sc.DOUBLING_FIRST_PREMIUM.getD 0
  pension_rate := sc.PENSION_RATE.getD 0
  health_perf_rate := sc.HEALTH_PER_PERFORMANCE.getD 0
  health_reh_rate := sc.HEALTH_PER_REHEARSAL.getD 0
  work_dues_rate := sc.WORK_DUES_RATE.getD 0

/-- Session base pay: the base rate, multiplied by the principal
multiplier when the participant is principal (app.py lines 150-151,
155-156, 176-177, 181-182). -/
def session_base_pay (base mult : ℚ) (is_princ : Bool) : ℚ :=
  if is_princ then base * mult else base

/-- Session overtime pay (app.py lines 153, 158, 179, 184): when the
session hours exceed 2.5 and the unit size is positive, the number of
units is `ceil((hours - 2.5) * 60 / unit_mins)` and each unit is paid at
the principal rate when the participant is principal, else at the
standard rate; otherwise overtime pay is 0. -/
def session_ot_pay (hours unit_mins rate principal_rate : ℚ)
    (is_princ : Bool) : ℚ :=
  if 2.5 < hours ∧ 0 < unit_mins then
    (⌈(hours - 2.5) * 60 / unit_mins⌉ : ℚ) *
      (if is_princ then principal_rate else rate)
  else 0

/-- The pay components computed for one participant, together with the
flat health contribution the participant's sessions add to the contract
total. -/
structure PayBreakdown where
  perf_pay : ℚ
  reh_pay : ℚ
  ot_pay : ℚ
  doubling_pay : ℚ
  cartage_pay : ℚ
  health_add : ℚ
deriving DecidableEq

/-- A participant's gross: the sum of the five pay components
(app.py lines 163, 189). -/
def PayBreakdown.gross (b : PayBreakdown) : ℚ :=
  b.perf_pay + b.reh_pay + b.ot_pay + b.doubling_pay + b.cartage_pay

/-- The per-participant calculation block of `calculate_contract_totals`.
The source contains this block twice, once for the leader
(app.py lines 147-163, with `is_princ`/`is_dbl`/`has_cart` hardcoded
false and an empty instrument) and once per side musician
(app.py lines 174-189); the two blocks are line-for-line identical up to
variable names, so they are embedded once. -/
def participant_block (cfg : AppConfig) (sc : ScaleConfig) (r : Rates)
    (perf_hours reh_hours : ℚ) (has_perf has_reh : Bool)
    (is_princ is_dbl has_cart : Bool) (instrument : String) : PayBreakdown :=
  let perf_pay := if has_perf
    then session_base_pay r.base_perf_rate r.principal_perf_mult is_princ
    else 0
  let perf_health := if has_perf then r.health_perf_rate else 0
  let perf_ot := if has_perf
    then session_ot_pay perf_hours r.perf_ot_unit_mins r.perf_ot_rate
      r.perf_ot_principal_rate is_princ
    else 0
  let reh_pay := if has_reh
    then session_base_pay r.base_reh_rate r.principal_reh_mult is_princ
    else 0
  let reh_health := if has_reh then r.health_reh_rate else 0
  let reh_ot := if has_reh
    then session_ot_pay reh_hours r.reh_ot_unit_mins r.reh_ot_rate
      r.reh_ot_principal_rate is_princ
    else 0
  let subtotal := perf_pay + reh_pay
  let doubling_pay := if is_dbl = true ∧ 0 < subtotal
    then subtotal * r.doubling_premium
    else 0
  let cartage_pay := get_cartage_fee cfg instrument has_cart (some sc)
  { perf_pay := perf_pay
    reh_pay := reh_pay
    ot_pay := perf_ot + reh_ot
    doubling_pay := doubling_pay
    cartage_pay := cartage_pay
    health_add := perf_health + reh_health }

/-- The contract-level accumulators of `calculate_contract_totals`. -/
structure RunningTotals where
  gross : ℚ
  pension : ℚ
  health : ℚ
  count : ℤ
deriving DecidableEq

/-- Folding one participant's breakdown into the contract accumulators
(app.py lines 152/157/165 for the leader, 178/183/191 for a musician):
health accrues whenever a session occurred; gross, pension and the
participant count accrue only when the participant's gross is positive. -/
def accum_participant (pension_rate : ℚ) (t : RunningTotals)
    (b : PayBreakdown) : RunningTotals :=
  let t1 : RunningTotals := { t with health := t.health + b.health_add }
  if 0 < b.gross then
    { t1 with
      gross := t1.gross + b.gross
      pension := t1.pension + b.gross * pension_rate
      count := t1.count + 1 }
  else t1

/-- The successful-path body of `calculate_contract_totals`
(app.py lines 140-194): derive the session flags from the stored hours,
run the participant block for the leader (hardcoded non-principal,
non-doubling, no cartage, empty instrument) and then for every side
musician in roster order, accumulating gross, pension, health and the
participant count. -/
def calc_core (cfg : AppConfig) (sc : ScaleConfig) (r : Rates)
    (perf_hours reh_hours : ℚ) (has_rehearsal : Bool)
    (ms : List SideMusicianR) : RunningTotals :=
  let has_perf := decide (0 < perf_hours)
  let has_reh := has_rehearsal && decide (0 < reh_hours)
  let leaderB := participant_block cfg sc r perf_hours reh_hours
    has_perf has_reh false false false ""
  let t1 := accum_participant r.pension_rate ⟨0, 0, 0, 0⟩ leaderB
  ms.foldl
    (fun t m =>
      accum_participant r.pension_rate t
        (participant_block cfg sc r perf_hours reh_hours has_perf has_reh
          (is_principal m.instrument (some sc)) m.is_doubling m.has_cartage
          m.instrument))
    t1

/-- The outcome of one run of `calculate_contract_totals` on the read
fields of a contract: `none` models the raised-and-caught `ValueError`
(schedule lookup failed, or `PERFORMANCE_BASE` defaulted/non-positive);
`some (gross, dues, pension, health, count)` carries the rounded totals
and the recomputed participant count of the success path
(app.py lines 194-199). -/
def calc_outputs (cfg : AppConfig) (loc scaleKey : String)
    (hoursE hoursR : Option ℚ) (hasReh : Bool) (ms : List SideMusicianR) :
    Option (ℚ × ℚ × ℚ × ℚ × ℤ) :=
  match AppConfig.lookupScale cfg loc scaleKey with
  | none => none
  | some sc =>
    let r := ratesOf sc
    if r.base_perf_rate ≤ 0 then none
    else
      let t := calc_core cfg sc r (hoursE.getD 0) (hoursR.getD 0) hasReh ms
      some (pyRound2 t.gross, pyRound2 (t.gross * r.work_dues_rate),
        pyRound2 t.pension, pyRound2 t.health, t.count)

/-- Models `calculate_contract_totals(contract)` of `app.py`
(lines 124-205): on success, overwrite the four stored totals (rounded to
cents) and the participant count; on failure (the `except` branch, app.py
lines 202-205), zero the four totals and leave everything else — the
participant count included — unchanged.  The Lean function is total: no
exception escapes this boundary. -/
def calculate_contract_totals (cfg : AppConfig) (c : Contract) : Contract :=
  match calc_outputs cfg c.applicable_local c.applicable_scale
      c.actual_hours_engagement c.actual_hours_rehearsal c.has_rehearsal
      c.side_musicians with
  | none =>
    { c with
      total_gross_comp := some 0
      total_work_dues := some 0
      total_pension := some 0
      total_health := some 0 }
  | some (g, w, p, h, n) =>
    { c with
      total_gross_comp := some g
      total_work_dues := some w
      total_pension := some p
      total_health := some h
      num_musicians := n }

/-- The fields of a contract that `calculate_contract_totals` writes:
the four stored totals and the participant count. -/
def Contract.outputs (c : Contract) :
    Option ℚ × Option ℚ × Option ℚ × Option ℚ × ℤ :=
  (c.total_gross_comp, c.total_work_dues, c.total_pension, c.total_health,
    c.num_musicians)

/-- The four stored monetary totals of a contract. -/
def Contract.storedTotals (c : Contract) :
    Option ℚ × Option ℚ × Option ℚ × Option ℚ :=
  (c.total_gross_comp, c.total_work_dues, c.total_pension, c.total_health)

/-- The `Local802 / ClassicalConcert_23_24` entry of the `SCALES`
dictionary in `config.py`, restricted to the `ScaleConfig` keys (all
other keys of the source entry are read by no code under verification).
In particular the keys `REHEARSAL_MIN_CALL`,
`PERFORMANCE_PRINCIPAL_PREMIUM`, `REHEARSAL_PRINCIPAL_PREMIUM`,
`REH_OT_UNIT_MINS`, `REH_OT_RATE`, `REH_OT_PRINCIPAL_RATE` and
`DOUBLING_FIRST_PREMIUM` are absent from the source entry. -/
def ClassicalConcert_23_24 : ScaleConfig where
  PERFORMANCE_BASE := some 333.91
  PERF_OT_UNIT_MINS := some 15
  PERF_OT_RATE := some 50.09
  PERF_OT_PRINCIPAL_RATE := some 60.10
  PENSION_RATE := some 0.1799
  HEALTH_PER_PERFORMANCE := some 84.00
  HEALTH_PER_REHEARSAL := some 31.50
  WORK_DUES_RATE := some 0.035
  CARTAGE_RATE_SB := some 49.04
  CARTAGE_RATE_STD := some 29.94
  PRINCIPAL_INSTRUMENTS := ["second violin", "viola", "cello", "bass",
    "flute", "oboe", "clarinet", "bassoon", "french horn", "trumpet",
    "trombone", "tuba", "timpani", "percussion", "harp", "keyboard"]
  CARTAGE_INSTRUMENTS_SB := ["string bass"]
  CARTAGE_INSTRUMENTS_STD := ["cello", "bass clarinet",
    "contrabass clarinet", "contrabassoon", "tuba"]

/-- The application configuration shipped in `config.py`: the `SCALES`
dictionary holds the single `Local802 / ClassicalConcert_23_24` entry,
and the two top-level cartage rate keys are not defined. -/
def shippedConfig : AppConfig where
  SCALES := [("Local802", [("ClassicalConcert_23_24",
    ClassicalConcert_23_24)])]
  SCALE_CARTAGE_STRING_BASS := none
  SCALE_CARTAGE_CELLO_BASS_ETC := none

/-- The contract of the end-to-end example: one leader, 3.0 performance
hours, no rehearsal, no side musicians, under the shipped
`Local802 / ClassicalConcert_23_24` schedule. -/
def contractC1 : Contract where
  applicable_local := "Local802"
  applicable_scale := "ClassicalConcert_23_24"
  actual_hours_engagement := some 3

/-- A contract requesting a scale key with no entry in the shipped
configuration, carrying stale stored totals and a stale participant
count. -/
def contractMissingScale : Contract where
  applicable_local := "Local802"
  applicable_scale := "ChamberMusic_23_24"
  actual_hours_engagement := some 3
  num_musicians := 7
  total_gross_comp := some 999
  total_work_dues := some 1
  total_pension := some 2
  total_health := some 3

/-- A minimal test schedule with a doubling premium, used to compare the
code's doubling base against the base-plus-overtime subtotal: base 100,
15-minute overtime units at rate 10, doubling fraction 0.20. -/
def doublingTestSchedule : ScaleConfig where
  PERFORMANCE_BASE := some 100
  PERF_OT_UNIT_MINS := some 15
  PERF_OT_RATE := some 10
  DOUBLING_FIRST_PREMIUM := some 0.2

/-- An application configuration that does define the two top-level
cartage rate keys, used to exercise the cartage tie-break. -/
def cartageTestConfig : AppConfig where
  SCALES := []
  SCALE_CARTAGE_STRING_BASS := some 49.04
  SCALE_CARTAGE_CELLO_BASS_ETC := some 29.94

/-- A test schedule whose principal performance multiplier is 0, so a
principal participant earns a gross of exactly 0 while the performance
session still occurred: base 100, principal multiplier 0, flat health
84 per performance. -/
def zeroPayTestSchedule : ScaleConfig where
  PERFORMANCE_BASE := some 100
  PERFORMANCE_PRINCIPAL_PREMIUM := some 0
  HEALTH_PER_PERFORMANCE := some 84
  PRINCIPAL_INSTRUMENTS := ["viola"]

/-- Application configuration holding only `zeroPayTestSchedule`. -/
def zeroPayTestConfig : AppConfig where
  SCALES := [("L", [("S", zeroPayTestSchedule)])]

/-- A contract under `zeroPayTestSchedule` with a 2-hour performance, a
non-principal leader and one principal side musician whose gross
computes to 0. -/
def contractZeroPayMusician : Contract where
  applicable_local := "L"
  applicable_scale := "S"
  actual_hours_engagement := some 2
  num_musicians := 5
  side_musicians := [{ instrument := "viola", is_doubling := false, has_cartage := false }]

/-- C1: for the shipped schedule (performance base 333.91, 15-minute
overtime units at 50.09, pension 0.1799, health 84.00 per performance,
work dues 0.035), a single non-principal, non-doubling, no-cartage leader
with 3.0 performance hours and no rehearsal earns 2 overtime units
(2 × 50.09), a gross of 434.09, and the contract totals are
gross = 434.09, work dues = 15.19, pension = 78.09, health = 84.00, with
one participant with pay. -/
theorem end_to_end_example_totals :
    session_ot_pay 3 15 50.09 60.10 false = 2 * 50.09
    ∧ (participant_block shippedConfig ClassicalConcert_23_24
        (ratesOf ClassicalConcert_23_24) 3 0 true false false false false
        "").gross = 434.09
    ∧ (calculate_contract_totals shippedConfig contractC1).outputs
        = (some 434.09, some 15.19, some 78.09, some 84.00, 1) := by
  refine ⟨?_, ?_, ?_⟩
  · with_unfolding_all rfl
  · with_unfolding_all rfl
  · with_unfolding_all rfl

/-- C2: whenever schedule resolution fails (no entry for the contract's
jurisdiction/scale pair) or the resolved schedule's performance base rate
defaults to a non-positive value, `calculate_contract_totals` returns the
contract with all four totals set to 0.0 and every other field — the
participant count included — unchanged; the Lean function is total, so no
exception escapes this boundary. -/
theorem failure_zeroes_totals (cfg : AppConfig) (c : Contract)
    (hfail : AppConfig.lookupScale cfg c.applicable_local
        c.applicable_scale = none
      ∨ ∃ sc, AppConfig.lookupScale cfg c.applicable_local
          c.applicable_scale = some sc ∧ sc.PERFORMANCE_BASE.getD 0 ≤ 0) :
    calculate_contract_totals cfg c =
      { c with total_gross_comp := some 0, total_work_dues := some 0, total_pension := some 0, total_health := some 0 } := by
  have hout : calc_outputs cfg c.applicable_local c.applicable_scale
      c.actual_hours_engagement c.actual_hours_rehearsal c.has_rehearsal
      c.side_musicians = none := by
    rcases hfail with h | ⟨sc, h, hle⟩
    · simp [calc_outputs, h]
    · simp [calc_outputs, h, ratesOf, hle]
  simp [calculate_contract_totals, hout]

/-- Witness for C2: the shipped configuration has no
`ChamberMusic_23_24` entry, and recalculating a contract that requests it
zeroes the four totals while keeping its stale participant count of 7. -/
theorem failure_zeroes_totals_witness :
    AppConfig.lookupScale shippedConfig "Local802" "ChamberMusic_23_24"
        = none
    ∧ calculate_contract_totals shippedConfig contractMissingScale
        = { contractMissingScale with total_gross_comp := some 0, total_work_dues := some 0, total_pension := some 0, total_health := some 0 } := by
  refine ⟨by with_unfolding_all rfl, ?_⟩
  exact failure_zeroes_totals shippedConfig contractMissingScale
    (Or.inl (by with_unfolding_all rfl))

/-- C5: a principal participant's session base pay is the base rate
multiplied — not incremented — by the principal multiplier: with base 100
and multiplier 1.2 it is 120.00, not 101.2.  The same holds for the
performance base pay computed inside the per-participant block. -/
theorem principal_multiplier_multiplicative :
    (∀ base mult : ℚ, session_base_pay base mult true = base * mult)
    ∧ (∀ (cfg : AppConfig) (sc : ScaleConfig) (r : Rates) (ph rh : ℚ)
        (hr dbl ct : Bool) (inst : String),
        (participant_block cfg sc r ph rh true hr true dbl ct
          inst).perf_pay = r.base_perf_rate * r.principal_perf_mult)
    ∧ session_base_pay 100 1.2 true = 120
    ∧ session_base_pay 100 1.2 true ≠ 100 + 1.2 := by
  refine ⟨fun base mult => rfl, fun cfg sc r ph rh hr dbl ct inst => rfl,
    by norm_num [session_base_pay], by norm_num [session_base_pay]⟩

/-- C3: session overtime pay is 0 when the session hours are at most
2.5; when the hours exceed 2.5 and the unit size is positive, the pay is
`ceil((hours - 2.5) * 60 / unitMinutes)` units, each at the principal
overtime rate for a principal participant and at the standard rate
otherwise; with 15-minute units, 2.75 hours yield 1 unit and 2.84 hours
yield 2 units. -/
theorem overtime_threshold_and_ceiling
    (hours unit_mins rate principal_rate : ℚ) (is_princ : Bool) :
    (hours ≤ 2.5 →
      session_ot_pay hours unit_mins rate principal_rate is_princ = 0)
    ∧ (2.5 < hours → 0 < unit_mins →
      session_ot_pay hours unit_mins rate principal_rate is_princ
        = (⌈(hours - 2.5) * 60 / unit_mins⌉ : ℚ)
          * (if is_princ = true then principal_rate else rate))
    ∧ session_ot_pay 2.75 15 rate principal_rate false = 1 * rate
    ∧ session_ot_pay 2.84 15 rate principal_rate false = 2 * rate := by
  have h275 : (⌈(((2.75 : ℚ) - 2.5) * 60) / 15⌉ : ℤ) = 1 := by
    with_unfolding_all rfl
  have h284 : (⌈(((2.84 : ℚ) - 2.5) * 60) / 15⌉ : ℤ) = 2 := by
    with_unfolding_all rfl
  refine ⟨?_, ?_, ?_, ?_⟩
  · intro h
    rw [session_ot_pay, if_neg]
    intro hcon
    exact absurd hcon.1 (not_lt.2 h)
  · intro h1 h2
    rw [session_ot_pay, if_pos ⟨h1, h2⟩]
  · rw [session_ot_pay, if_pos (by norm_num : (2.5:ℚ) < 2.75 ∧ (0:ℚ) < 15)]
    simp [h275]
  · rw [session_ot_pay, if_pos (by norm_num : (2.5:ℚ) < 2.84 ∧ (0:ℚ) < 15)]
    simp [h284]

/-- Witness for C3: hours exactly 2.5 yield zero overtime pay, and 3.0
hours with 15-minute units at the shipped rates are paid by the ceiling
formula. -/
theorem overtime_threshold_and_ceiling_witness :
    session_ot_pay 2.5 15 50.09 60.10 false = 0
    ∧ session_ot_pay 3 15 50.09 60.10 false
      = (⌈((3 : ℚ) - 2.5) * 60 / 15⌉ : ℚ)
        * (if false = true then (60.10 : ℚ) else 50.09) := by
  exact ⟨(overtime_threshold_and_ceiling 2.5 15 50.09 60.10 false).1
      (by norm_num),
    (overtime_threshold_and_ceiling 3 15 50.09 60.10 false).2.1
      (by norm_num) (by norm_num)⟩

/-- C4 counterexample: with a schedule paying base 100, two 15-minute
overtime units at 10 each (3.0 hours), and doubling fraction 0.20, a
doubling participant's doubling premium is 20 = 0.20 × 100 (the base-pay
subtotal), not 24 = 0.20 × 120 (the base-plus-overtime subtotal): the
code excludes overtime pay from the doubling base. -/
theorem doubling_subtotal_counterexample :
    (participant_block shippedConfig doublingTestSchedule
      (ratesOf doublingTestSchedule) 3 0 true false false true false
      "").doubling_pay = 20
    ∧ (ratesOf doublingTestSchedule).doubling_premium
        * ((participant_block shippedConfig doublingTestSchedule
            (ratesOf doublingTestSchedule) 3 0 true false false true false
            "").perf_pay
          + (participant_block shippedConfig doublingTestSchedule
              (ratesOf doublingTestSchedule) 3 0 true false false true
              false "").reh_pay
          + (participant_block shippedConfig doublingTestSchedule
              (ratesOf doublingTestSchedule) 3 0 true false false true
              false "").ot_pay) = 24
    ∧ (participant_block shippedConfig doublingTestSchedule
        (ratesOf doublingTestSchedule) 3 0 true false false true false
        "").doubling_pay
      ≠ (ratesOf doublingTestSchedule).doubling_premium
        * ((participant_block shippedConfig doublingTestSchedule
            (ratesOf doublingTestSchedule) 3 0 true false false true false
            "").perf_pay
          + (participant_block shippedConfig doublingTestSchedule
              (ratesOf doublingTestSchedule) 3 0 true false false true
              false "").reh_pay
          + (participant_block shippedConfig doublingTestSchedule
              (ratesOf doublingTestSchedule) 3 0 true false false true
              false "").ot_pay) := by
  have h1 : (participant_block shippedConfig doublingTestSchedule
      (ratesOf doublingTestSchedule) 3 0 true false false true false
      "").doubling_pay = 20 := by with_unfolding_all rfl
  have h2 : (ratesOf doublingTestSchedule).doubling_premium
      * ((participant_block shippedConfig doublingTestSchedule
          (ratesOf doublingTestSchedule) 3 0 true false false true false
          "").perf_pay
        + (participant_block shippedConfig doublingTestSchedule
            (ratesOf doublingTestSchedule) 3 0 true false false true
            false "").reh_pay
        + (participant_block shippedConfig doublingTestSchedule
            (ratesOf doublingTestSchedule) 3 0 true false false true
            false "").ot_pay) = 24 := by with_unfolding_all rfl
  refine ⟨h1, h2, ?_⟩
  rw [h1, h2]
  norm_num

/-- C4 amended: the doubling premium equals the doubling fraction times
the participant's base-pay subtotal (performance base pay plus rehearsal
base pay, excluding overtime), and it is granted only when the
participant is doubling and that subtotal is strictly positive; in
particular a doubling participant with neither a performance nor a
rehearsal session receives zero doubling pay. -/
theorem doubling_premium_on_base_subtotal (cfg : AppConfig)
    (sc : ScaleConfig) (r : Rates) (ph rh : ℚ) (hp hr princ dbl ct : Bool)
    (inst : String) :
    ((participant_block cfg sc r ph rh hp hr princ dbl ct
        inst).doubling_pay
      = if dbl = true
          ∧ 0 < (participant_block cfg sc r ph rh hp hr princ dbl ct
              inst).perf_pay
            + (participant_block cfg sc r ph rh hp hr princ dbl ct
              inst).reh_pay
        then ((participant_block cfg sc r ph rh hp hr princ dbl ct
              inst).perf_pay
            + (participant_block cfg sc r ph rh hp hr princ dbl ct
              inst).reh_pay) * r.doubling_premium
        else 0)
    ∧ (participant_block cfg sc r ph rh false false princ true ct
        inst).doubling_pay = 0 := by
  constructor
  · rfl
  · simp [participant_block]

/-- C6 counterexample: for the instrument "string bass" with the cartage
flag set under the shipped schedule, `get_cartage_fee` returns 0 — the
application-level rate key, which the shipped configuration does not
define — and not the schedule's own string-bass cartage rate 49.04. -/
theorem cartage_schedule_rate_counterexample :
    matches_sb ClassicalConcert_23_24 (py_lower "string bass") = true
    ∧ get_cartage_fee shippedConfig "string bass" true
        (some ClassicalConcert_23_24) = 0
    ∧ ClassicalConcert_23_24.CARTAGE_RATE_SB.getD 0 = 49.04
    ∧ get_cartage_fee shippedConfig "string bass" true
        (some ClassicalConcert_23_24)
      ≠ ClassicalConcert_23_24.CARTAGE_RATE_SB.getD 0 := by
  have h1 : get_cartage_fee shippedConfig "string bass" true
      (some ClassicalConcert_23_24) = 0 := by with_unfolding_all rfl
  have h2 : ClassicalConcert_23_24.CARTAGE_RATE_SB.getD 0 = 49.04 := by
    with_unfolding_all rfl
  refine ⟨by with_unfolding_all rfl, h1, h2, ?_⟩
  rw [h1, h2]
  norm_num

/-- C6 amended: `get_cartage_fee` returns 0 when the flag is false, the
instrument is empty, or the schedule is absent; otherwise a string-bass
list match (case-insensitive substring) returns the application-level
`SCALE_CARTAGE_STRING_BASS` rate (0 when unset) — even when the
instrument also matches the standard list — else a standard-list match
returns the application-level `SCALE_CARTAGE_CELLO_BASS_ETC` rate (0 when
unset), else 0. -/
theorem cartage_fee_characterization (cfg : AppConfig) (inst : String)
    (flag : Bool) (osc : Option ScaleConfig) :
    (flag = false → get_cartage_fee cfg inst flag osc = 0)
    ∧ (inst = "" → get_cartage_fee cfg inst flag osc = 0)
    ∧ (osc = none → get_cartage_fee cfg inst flag osc = 0)
    ∧ ∀ sc, osc = some sc → flag = true → inst ≠ "" →
      ((matches_sb sc (py_lower inst) = true →
        get_cartage_fee cfg inst flag osc
          = cfg.SCALE_CARTAGE_STRING_BASS.getD 0)
      ∧ (matches_sb sc (py_lower inst) = false →
          matches_std sc (py_lower inst) = true →
        get_cartage_fee cfg inst flag osc
          = cfg.SCALE_CARTAGE_CELLO_BASS_ETC.getD 0)
      ∧ (matches_sb sc (py_lower inst) = false →
          matches_std sc (py_lower inst) = false →
        get_cartage_fee cfg inst flag osc = 0)) := by
  refine ⟨fun hf => by simp [get_cartage_fee, hf],
    fun hi => by simp [get_cartage_fee, hi],
    fun ho => by simp [get_cartage_fee, ho],
    fun sc hsc hf hi => ⟨fun hsb => ?_, fun hsb hstd => ?_,
      fun hsb hstd => ?_⟩⟩
  · subst hsc; simp [get_cartage_fee, hf, hi, hsb]
  · subst hsc; simp [get_cartage_fee, hf, hi, hsb, hstd]
  · subst hsc; simp [get_cartage_fee, hf, hi, hsb, hstd]

/-- Witness for C6 amended: "string bass clarinet" matches both the
string-bass list and the standard list of the shipped schedule, and with
both application-level rates configured the string-bass rate 49.04 wins. -/
theorem cartage_fee_characterization_witness :
    matches_sb ClassicalConcert_23_24 (py_lower "string bass clarinet")
        = true
    ∧ matches_std ClassicalConcert_23_24 (py_lower "string bass clarinet")
        = true
    ∧ get_cartage_fee cartageTestConfig "string bass clarinet" true
        (some ClassicalConcert_23_24) = 49.04 := by
  have hsb : matches_sb ClassicalConcert_23_24
      (py_lower "string bass clarinet") = true := by with_unfolding_all rfl
  have hstd : matches_std ClassicalConcert_23_24
      (py_lower "string bass clarinet") = true := by with_unfolding_all rfl
  refine ⟨hsb, hstd, ?_⟩
  have h := ((cartage_fee_characterization cartageTestConfig
      "string bass clarinet" true
      (some ClassicalConcert_23_24)).2.2.2 ClassicalConcert_23_24 rfl rfl
      (by simp)).1 hsb
  rw [h]
  with_unfolding_all rfl

/-- C7: a participant's flat health contribution is exactly the
per-performance amount when a performance occurred plus the
per-rehearsal amount when a rehearsal occurred, independent of pay,
gross and principal status; concretely, under a schedule with principal
multiplier 0, a principal musician with a performance has gross 0 yet
still adds 84 to the contract's health total (168 with the leader),
while only the leader is counted as a participant with pay. -/
theorem health_accrual_session_based :
    (∀ (cfg : AppConfig) (sc : ScaleConfig) (r : Rates) (ph rh : ℚ)
      (hp hr princ dbl ct : Bool) (inst : String),
      (participant_block cfg sc r ph rh hp hr princ dbl ct
          inst).health_add
        = (if hp = true then r.health_perf_rate else 0)
          + (if hr = true then r.health_reh_rate else 0))
    ∧ is_principal "viola" (some zeroPayTestSchedule) = true
    ∧ (participant_block zeroPayTestConfig zeroPayTestSchedule
        (ratesOf zeroPayTestSchedule) 2 0 true false true false false
        "viola").gross = 0
    ∧ (participant_block zeroPayTestConfig zeroPayTestSchedule
        (ratesOf zeroPayTestSchedule) 2 0 true false true false false
        "viola").health_add = 84
    ∧ (calculate_contract_totals zeroPayTestConfig
        contractZeroPayMusician).total_health = some 168
    ∧ (calculate_contract_totals zeroPayTestConfig
        contractZeroPayMusician).num_musicians = 1 := by
  refine ⟨fun cfg sc r ph rh hp hr princ dbl ct inst => rfl,
    by with_unfolding_all rfl, by with_unfolding_all rfl,
    by with_unfolding_all rfl, by with_unfolding_all rfl,
    by with_unfolding_all rfl⟩

/-- C8: the totals written by `calculate_contract_totals` are a function
only of the configuration, the contract's hours/flags and the roster,
never of the previously stored totals or participant count; consequently
the function is deterministic and idempotent: overwriting the stored
totals and count with arbitrary values does not change the four computed
totals, and running the calculation twice on an unchanged snapshot
returns the very same contract — identical totals and participant
count. -/
theorem recalculate_idempotent_deterministic (cfg : AppConfig)
    (c : Contract) (g w p h : Option ℚ) (n : ℤ) :
    (calculate_contract_totals cfg
      { c with total_gross_comp := g, total_work_dues := w, total_pension := p, total_health := h, num_musicians := n }).storedTotals
      = (calculate_contract_totals cfg c).storedTotals
    ∧ calculate_contract_totals cfg (calculate_contract_totals cfg c)
      = calculate_contract_totals cfg c := by
  constructor
  · unfold calculate_contract_totals
    cases ho : calc_outputs cfg c.applicable_local c.applicable_scale
        c.actual_hours_engagement c.actual_hours_rehearsal c.has_rehearsal
        c.side_musicians with
    | none => simp [ho, Contract.storedTotals]
    | some t =>
      obtain ⟨g', w', p', h', n'⟩ := t
      simp [ho, Contract.storedTotals]
  · unfold calculate_contract_totals
    cases ho : calc_outputs cfg c.applicable_local c.applicable_scale
        c.actual_hours_engagement c.actual_hours_rehearsal c.has_rehearsal
        c.side_musicians with
    | none => simp [ho]
    | some t =>
      obtain ⟨g', w', p', h', n'⟩ := t
      simp [ho]

/-- C9: in the shipped `Local802 / ClassicalConcert_23_24` configuration
the keys `REHEARSAL_MIN_CALL`, `PERFORMANCE_PRINCIPAL_PREMIUM`,
`REHEARSAL_PRINCIPAL_PREMIUM`, `REH_OT_UNIT_MINS`, `REH_OT_RATE`,
`REH_OT_PRINCIPAL_RATE` and `DOUBLING_FIRST_PREMIUM`, and the two
application-level cartage rate keys, are all absent; hence for every
participant under this configuration the rehearsal base pay, the
rehearsal overtime contribution, the doubling pay and the cartage fee
are all 0, and the performance base pay is 333.91 whenever a performance
occurred, principal or not (the multipliers default to 1.0). -/
theorem shipped_scale_absent_keys_zero_components (ph rh : ℚ)
    (hp hr princ dbl ct : Bool) (inst : String) :
    ClassicalConcert_23_24.REHEARSAL_MIN_CALL = none
    ∧ ClassicalConcert_23_24.PERFORMANCE_PRINCIPAL_PREMIUM = none
    ∧ ClassicalConcert_23_24.REHEARSAL_PRINCIPAL_PREMIUM = none
    ∧ ClassicalConcert_23_24.REH_OT_UNIT_MINS = none
    ∧ ClassicalConcert_23_24.REH_OT_RATE = none
    ∧ ClassicalConcert_23_24.REH_OT_PRINCIPAL_RATE = none
    ∧ ClassicalConcert_23_24.DOUBLING_FIRST_PREMIUM = none
    ∧ shippedConfig.SCALE_CARTAGE_STRING_BASS = none
    ∧ shippedConfig.SCALE_CARTAGE_CELLO_BASS_ETC = none
    ∧ (participant_block shippedConfig ClassicalConcert_23_24
        (ratesOf ClassicalConcert_23_24) ph rh hp hr princ dbl ct
        inst).reh_pay = 0
    ∧ (participant_block shippedConfig ClassicalConcert_23_24
        (ratesOf ClassicalConcert_23_24) ph rh hp hr princ dbl ct
        inst).ot_pay
      = (if hp = true
          then session_ot_pay ph 15 50.09 60.10 princ else 0)
    ∧ (participant_block shippedConfig ClassicalConcert_23_24
        (ratesOf ClassicalConcert_23_24) ph rh hp hr princ dbl ct
        inst).doubling_pay = 0
    ∧ (participant_block shippedConfig ClassicalConcert_23_24
        (ratesOf ClassicalConcert_23_24) ph rh hp hr princ dbl ct
        inst).cartage_pay = 0
    ∧ (participant_block shippedConfig ClassicalConcert_23_24
        (ratesOf ClassicalConcert_23_24) ph rh hp hr princ dbl ct
        inst).perf_pay = (if hp = true then (333.91 : ℚ) else 0) := by
  have hreh : (participant_block shippedConfig ClassicalConcert_23_24
      (ratesOf ClassicalConcert_23_24) ph rh hp hr princ dbl ct
      inst).reh_pay = 0 := by
    simp [participant_block, session_base_pay, ratesOf,
      ClassicalConcert_23_24]
  refine ⟨rfl, rfl, rfl, rfl, rfl, rfl, rfl, rfl, rfl, hreh, ?_, ?_, ?_,
    ?_⟩
  · simp [participant_block, session_ot_pay, ratesOf,
      ClassicalConcert_23_24]
  · simp [participant_block, hreh, ratesOf, ClassicalConcert_23_24]
  · simp only [participant_block]
    rw [get_cartage_fee]
    split
    · rfl
    · simp only [shippedConfig]
      split <;> simp
  · simp [participant_block, session_base_pay, ratesOf,
      ClassicalConcert_23_24]

/-- C10: the stored leader fields (`leader_instrument`,
`leader_is_principal`, `leader_is_concertmaster`, `leader_is_doubling`,
`leader_num_doubles`, `leader_has_cartage`) never influence the computed
totals or participant count — the calculator hardcodes the leader as a
non-principal, non-doubling, no-cartage participant with an empty
instrument — and the leader's doubling pay and cartage pay are 0 in
every run. -/
theorem leader_fields_noninterference (cfg : AppConfig) (c : Contract)
    (li : String) (lp lc ld lh : Bool) (ln : ℤ) :
    (calculate_contract_totals cfg
      { c with leader_instrument := li, leader_is_principal := lp, leader_is_concertmaster := lc, leader_is_doubling := ld, leader_num_doubles := ln, leader_has_cartage := lh }).outputs
      = (calculate_contract_totals cfg c).outputs
    ∧ (∀ (sc : ScaleConfig) (r : Rates) (ph rh : ℚ) (hp hr : Bool),
      (participant_block cfg sc r ph rh hp hr false false false
          "").doubling_pay = 0
      ∧ (participant_block cfg sc r ph rh hp hr false false false
          "").cartage_pay = 0) := by
  constructor
  · unfold calculate_contract_totals
    cases ho : calc_outputs cfg c.applicable_local c.applicable_scale
        c.actual_hours_engagement c.actual_hours_rehearsal c.has_rehearsal
        c.side_musicians with
    | none => simp [ho, Contract.outputs]
    | some t =>
      obtain ⟨g', w', p', h', n'⟩ := t
      simp [ho, Contract.outputs]
  · intro sc r ph rh hp hr
    exact ⟨by simp [participant_block],
      by simp [participant_block, get_cartage_fee]⟩

end MuseContracts
